import Mathlib

/-
Verification of the k8s-pilot core: context resolution, the context-defaulting
wrapper, the per-context API-client cache, the readonly permission gate, and
the cluster-switch tool.  Definitions are shallow embeddings of the Python
source (src/core/context.py, src/core/kubeconfig.py, src/core/permissions.py,
src/core/config.py, src/tools/cluster.py, src/tools/deployment.py,
src/tools/configmap.py, src/tools/role.py, src/tools/ingress.py).
-/

set_option autoImplicit false

namespace K8sPilot

/-- A Python runtime value, as far as the wrapper logic inspects it:
the wrapper only distinguishes None from other values, and the namespace
lookup compares a value against context-name strings. -/
inductive Value where
  | vnone : Value
  | vstr : String → Value
  | vnat : Nat → Value
  deriving DecidableEq, Repr

/-- Errors raised by the embedded code paths. -/
inductive PyErr where
  /-- kubernetes.config.ConfigException: kubeconfig missing a usable current context -/
  | configError : PyErr
  /-- KeyError on a dict subscript -/
  | keyError : String → PyErr
  /-- TypeError: got multiple values for an argument -/
  | typeErrorMultipleValues : String → PyErr
  /-- TypeError: unexpected keyword argument -/
  | typeErrorUnexpected : String → PyErr
  /-- TypeError: missing required argument -/
  | typeErrorMissing : String → PyErr
  /-- TypeError: too many positional arguments -/
  | typeErrorTooMany : PyErr
  /-- PermissionError raised by the readonly gate, carrying the operation name -/
  | permissionError : String → PyErr
  deriving DecidableEq, Repr

/-- The `context` sub-mapping of one kubeconfig context entry. -/
structure CtxData where
  cluster : Option String
  user : Option String
  nspace : Option String
  deriving DecidableEq, Repr

/-- One entry of the kubeconfig `contexts` list. -/
structure KContext where
  name : String
  ctx : CtxData
  deriving DecidableEq, Repr

/-- The parsed kubeconfig file: `current-context` and `contexts`.
An absent `current-context` key is `none`; an absent `contexts` key is `[]`. -/
structure KubeConfig where
  currentContext : Option String
  contexts : List KContext
  deriving DecidableEq, Repr

/-! ### Context resolver (src/core/context.py) -/

/-- `get_current_context_name` (src/core/context.py): the kubernetes client's
`config.list_kube_config_contexts()` resolves `current-context` against the
context list and raises a ConfigException when the key is absent or names no
entry; the function returns the active entry's name. -/
def get_current_context_name (cfg : KubeConfig) : Except PyErr String :=
  match cfg.currentContext with
  | none => Except.error PyErr.configError
  | some cur =>
      match cfg.contexts.find? (fun c => c.name == cur) with
      | some c => Except.ok c.name
      | none => Except.error PyErr.configError

/-- `get_default_namespace` (src/core/context.py): scan the context list for the
first entry with the given name; return its declared namespace if set, else
"default"; if no entry matches, return "default". -/
def get_default_namespace (cfg : KubeConfig) (context_name : String) : String :=
  match cfg.contexts.find? (fun c => c.name == context_name) with
  | some c => c.ctx.nspace.getD "default"
  | none => "default"

/-- The value `kwargs["context_name"]` that `get_default_namespace` receives may
be any Python value; the scan compares each entry name against it, so a
non-string value matches nothing and yields "default". -/
def get_default_namespace_of_value (cfg : KubeConfig) (v : Value) : String :=
  match v with
  | Value.vstr s => get_default_namespace cfg s
  | _ => "default"

/-! ### Keyword-argument maps and the context-defaulting wrapper -/

/-- `kwargs[k]` membership-or-None test: models
`k not in kwargs or kwargs[k] is None`. -/
def missing_or_none (kwargs : List (String × Value)) (k : String) : Bool :=
  match kwargs.lookup k with
  | none => true
  | some Value.vnone => true
  | some _ => false

/-- `kwargs[k] = v`: replace the entry in place when the key is present,
append it otherwise (Python dict update semantics, insertion order kept). -/
def kwset (kwargs : List (String × Value)) (k : String) (v : Value) :
    List (String × Value) :=
  match kwargs with
  | [] => [(k, v)]
  | (k0, v0) :: rest =>
      if k == k0 then (k0, v) :: rest else (k0, v0) :: kwset rest k v

/-- `use_current_context` (src/core/context.py): the decorator's wrapper body.
`params` is the wrapped function's declared parameter-name list
(`inspect.signature`); the wrapper inspects and edits only `kwargs`, leaving
positional `args` untouched, then the call `func(*args, **kwargs)` is made
with the returned pair.  Raising inside `get_current_context_name` propagates. -/
def use_current_context (cfg : KubeConfig) (params : List String)
    (args : List Value) (kwargs : List (String × Value)) :
    Except PyErr (List Value × List (String × Value)) :=
  if params.contains "context_name" then
    match (if missing_or_none kwargs "context_name" then
             match get_current_context_name cfg with
             | Except.ok cur => Except.ok (kwset kwargs "context_name" (Value.vstr cur))
             | Except.error e => Except.error e
           else Except.ok kwargs) with
    | Except.error e => Except.error e
    | Except.ok kwargs1 =>
        let ctxVal := (kwargs1.lookup "context_name").getD Value.vnone
        if params.contains "namespace" then
          if missing_or_none kwargs1 "namespace" then
            Except.ok (args,
              kwset kwargs1 "namespace"
                (Value.vstr (get_default_namespace_of_value cfg ctxVal)))
          else Except.ok (args, kwargs1)
        else Except.ok (args, kwargs1)
  else Except.ok (args, kwargs)

/-- CPython argument binding for `func(*args, **kwargs)` against a parameter
list without defaults: positional arguments fill the leading parameters; a
keyword naming an already-filled parameter raises TypeError "got multiple
values"; an unknown keyword raises TypeError; an unfilled parameter raises
TypeError "missing". -/
def bindArgs (params : List String) (args : List Value)
    (kwargs : List (String × Value)) : Except PyErr (List (String × Value)) :=
  if params.length < args.length then Except.error PyErr.typeErrorTooMany
  else
    let posNames := params.take args.length
    match kwargs.find? (fun p => posNames.contains p.1) with
    | some p => Except.error (PyErr.typeErrorMultipleValues p.1)
    | none =>
        match kwargs.find? (fun p => !(params.contains p.1)) with
        | some p => Except.error (PyErr.typeErrorUnexpected p.1)
        | none =>
            match (params.drop args.length).find?
                (fun n => (kwargs.lookup n).isNone) with
            | some n => Except.error (PyErr.typeErrorMissing n)
            | none => Except.ok (posNames.zip args ++ kwargs)

/-- A call to a tool function decorated with `use_current_context`: the wrapper
runs first, then the delegated call binds the (possibly edited) arguments
against the function's parameters. -/
def wrapped_call (cfg : KubeConfig) (params : List String)
    (args : List Value) (kwargs : List (String × Value)) :
    Except PyErr (List (String × Value)) :=
  match use_current_context cfg params args kwargs with
  | Except.error e => Except.error e
  | Except.ok (args1, kwargs1) => bindArgs params args1 kwargs1

/-! ### Client cache (src/core/kubeconfig.py) -/

/-- An ApiClient bundle: the dict built by `get_api_clients` on a cache miss.
`bundleId` tracks object identity of the underlying ApiClient; `handles` are
the typed API handles keyed by group name. -/
structure Bundle where
  bundleId : Nat
  handles : List (String × Nat)
  deriving DecidableEq, Repr

/-- The dict literal stored by `get_api_clients`: exactly the three groups
`core` (CoreV1Api), `apps` (AppsV1Api), `batch` (BatchV1Api). -/
def newBundle (id : Nat) : Bundle :=
  ⟨id, [("core", 3 * id), ("apps", 3 * id + 1), ("batch", 3 * id + 2)]⟩

/-- The module state of src/core/kubeconfig.py: the `_client_cache` dict,
plus instrumentation — `loadCount` counts `config.load_kube_config` calls
(each performs the kubeconfig read and credential load), `nextId` is a fresh
object-identity supply. -/
structure CacheState where
  cache : List (String × Bundle)
  loadCount : Nat
  nextId : Nat
  deriving DecidableEq, Repr

/-- `get_api_clients` (src/core/kubeconfig.py): on a cache miss load the
kubeconfig for the context, build the client dict, store it under the context
name; on a hit return the stored dict untouched. -/
def get_api_clients (context_name : String) (s : CacheState) :
    Bundle × CacheState :=
  match s.cache.lookup context_name with
  | some b => (b, s)
  | none =>
      let b := newBundle s.nextId
      (b, ⟨s.cache ++ [(context_name, b)], s.loadCount + 1, s.nextId + 1⟩)

/-- `role_list`'s handle acquisition (src/tools/role.py):
`get_api_clients(context_name)["rbac"]` — a dict subscript that raises
KeyError when the group is absent from the bundle. -/
def role_list_get_rbac (context_name : String) (s : CacheState) :
    Except PyErr Nat × CacheState :=
  let r := get_api_clients context_name s
  match r.1.handles.lookup "rbac" with
  | some h => (Except.ok h, r.2)
  | none => (Except.error (PyErr.keyError "rbac"), r.2)

/-- `ingress_list`'s handle acquisition (src/tools/ingress.py):
`get_api_clients(context_name)["networking"]`. -/
def ingress_list_get_networking (context_name : String) (s : CacheState) :
    Except PyErr Nat × CacheState :=
  let r := get_api_clients context_name s
  match r.1.handles.lookup "networking" with
  | some h => (Except.ok h, r.2)
  | none => (Except.error (PyErr.keyError "networking"), r.2)

/-! ### Readonly gate (src/core/config.py, src/core/permissions.py) -/

/-- Process state seen by a tool invocation: the readonly flag set once by
`parse_arguments` (src/core/config.py), the client cache, and a counter of
cluster API calls actually issued. -/
structure World where
  readonly : Bool
  cache : CacheState
  clusterCalls : Nat
  deriving DecidableEq, Repr

/-- `check_readonly_permission` (src/core/permissions.py): before delegating,
consult `is_readonly_mode()`; when readonly, raise PermissionError carrying
`func.__name__` without invoking the wrapped function; otherwise delegate with
the arguments unchanged and return the delegate's outcome unchanged. -/
def check_readonly_permission {α β : Type} (funcName : String)
    (func : β → World → Except PyErr α × World) (arg : β) (w : World) :
    Except PyErr α × World :=
  if w.readonly then (Except.error (PyErr.permissionError funcName), w)
  else func arg w

/-- A tool's reshaped success payload such as
`{"name": ..., "status": "Created"}`. -/
structure OpResult where
  name : String
  status : String
  deriving DecidableEq, Repr

/-- `deployment_create`'s body after context defaulting
(src/tools/deployment.py): fetch the `apps` handle from the bundle and issue
one `create_namespaced_deployment` call against the cluster.  In the source
this function carries only `@mcp.tool()` and `@use_current_context` — there is
no `@check_readonly_permission` decorator on any deployment tool. -/
def deployment_create (context_name nspace nm image : String) (w : World) :
    Except PyErr OpResult × World :=
  let r := get_api_clients context_name w.cache
  match r.1.handles.lookup "apps" with
  | none => (Except.error (PyErr.keyError "apps"), { w with cache := r.2 })
  | some _ =>
      (Except.ok ⟨nm, "Created"⟩,
       { w with cache := r.2, clusterCalls := w.clusterCalls + 1 })

/-- `configmap_create`'s body (src/tools/configmap.py): fetch the `core`
handle and issue one `create_namespaced_config_map` call. -/
def configmap_create_body (context_name nspace nm : String) (w : World) :
    Except PyErr OpResult × World :=
  let r := get_api_clients context_name w.cache
  match r.1.handles.lookup "core" with
  | none => (Except.error (PyErr.keyError "core"), { w with cache := r.2 })
  | some _ =>
      (Except.ok ⟨nm, "Created"⟩,
       { w with cache := r.2, clusterCalls := w.clusterCalls + 1 })

/-- `configmap_create` as decorated in the source: unlike the deployment
tools it is wrapped in `@check_readonly_permission`. -/
def configmap_create (context_name nspace nm : String) (w : World) :
    Except PyErr OpResult × World :=
  check_readonly_permission "configmap_create"
    (fun a => configmap_create_body a.1 a.2.1 a.2.2) (context_name, nspace, nm) w

/-! ### Cluster tools (src/tools/cluster.py) -/

/-- A `{"status": ..., "message": ...}` result. -/
structure ToolStatus where
  status : String
  message : String
  deriving DecidableEq, Repr

/-- The view object returned by the cluster tools (src/models/context.py). -/
structure ContextInfo where
  name : String
  cluster : Option String
  user : Option String
  current : Bool
  deriving DecidableEq, Repr

/-- `get_current_cluster` (src/tools/cluster.py): scan the context list for
the entry named by `current-context`; return its ContextInfo with
`current=True`, or None when nothing matches (including an absent
`current-context` key or an empty context list). -/
def get_current_cluster (cfg : KubeConfig) : Option ContextInfo :=
  match cfg.contexts.find? (fun c => some c.name == cfg.currentContext) with
  | some c => some ⟨c.name, c.ctx.cluster, c.ctx.user, true⟩
  | none => none

/-- `set_current_cluster` (src/tools/cluster.py): when the name matches a
context entry, rewrite `current-context` and dump the config file, reporting
success; otherwise report an error without writing.  The returned KubeConfig
is the persisted file content after the call.  In the source this tool also
carries no readonly protection. -/
def set_current_cluster (cluster_name : String) (cfg : KubeConfig) :
    KubeConfig × ToolStatus :=
  if cfg.contexts.any (fun c => c.name == cluster_name) then
    ({ cfg with currentContext := some cluster_name },
     ⟨"success", "Current context set to " ++ cluster_name⟩)
  else
    (cfg, ⟨"error", "Context " ++ cluster_name ++ " not found"⟩)

/-! ### Concrete fixtures used by witness theorems -/

/-- A context entry that declares a namespace. -/
def devCtx : KContext := ⟨"dev", ⟨some "c1", some "u1", some "ns1"⟩⟩

/-- A context entry that declares no namespace. -/
def stagingCtx : KContext := ⟨"staging", ⟨some "c2", some "u2", none⟩⟩

/-- A kubeconfig with contexts dev and staging, current staging. -/
def demoCfg : KubeConfig := ⟨some "staging", [devCtx, stagingCtx]⟩

/-! ### C4: default-namespace resolution -/

/-- C4: for every context name and configuration, `get_default_namespace`
returns the first matching context's declared namespace when one is set, and
"default" when the matching context declares no namespace or when no context
matches the given name (lenient fallback, not an error). -/
theorem get_default_namespace_single_match (cfg : KubeConfig) (context_name : String) :
    (∀ c, cfg.contexts.find? (fun k => k.name == context_name) = some c →
        (∀ n, c.ctx.nspace = some n → get_default_namespace cfg context_name = n) ∧
        (c.ctx.nspace = none → get_default_namespace cfg context_name = "default")) ∧
    (cfg.contexts.find? (fun k => k.name == context_name) = none →
        get_default_namespace cfg context_name = "default") := by
  constructor
  · intro c hc
    constructor
    · intro n hn
      simp [get_default_namespace, hc, hn]
    · intro hn
      simp [get_default_namespace, hc, hn]
  · intro h
    simp [get_default_namespace, h]

/-- Witness for C4: current context "staging" declares no namespace, "dev"
declares "ns1", and "prod" is not listed. -/
theorem get_default_namespace_single_match_witness :
    get_default_namespace demoCfg "staging" = "default" ∧
    get_default_namespace demoCfg "dev" = "ns1" ∧
    get_default_namespace demoCfg "prod" = "default" :=
  ⟨((get_default_namespace_single_match demoCfg "staging").1 stagingCtx (by decide)).2
      (by decide),
   ((get_default_namespace_single_match demoCfg "dev").1 devCtx (by decide)).1 "ns1"
      (by decide),
   (get_default_namespace_single_match demoCfg "prod").2 (by decide)⟩

/-! ### C7: cluster switch -/

/-- C7: `set_current_cluster` with a name absent from the context list reports
a not-found error and leaves the persisted configuration unchanged; with a
present name it rewrites `current-context` to that name, keeps the context
list, and reports success. -/
theorem set_current_cluster_not_found_or_rewrite (cluster_name : String) (cfg : KubeConfig) :
    (cfg.contexts.any (fun c => c.name == cluster_name) = false →
        set_current_cluster cluster_name cfg =
          (cfg, ⟨"error", "Context " ++ cluster_name ++ " not found"⟩)) ∧
    (cfg.contexts.any (fun c => c.name == cluster_name) = true →
        (set_current_cluster cluster_name cfg).1.currentContext = some cluster_name ∧
        (set_current_cluster cluster_name cfg).1.contexts = cfg.contexts ∧
        (set_current_cluster cluster_name cfg).2.status = "success") := by
  constructor
  · intro h
    simp [set_current_cluster, h]
  · intro h
    simp [set_current_cluster, h]

/-- Witness for C7: switching to the unlisted "prod" fails without a write;
switching to the listed "dev" rewrites the current-context field. -/
theorem set_current_cluster_not_found_or_rewrite_witness :
    set_current_cluster "prod" demoCfg =
      (demoCfg, ⟨"error", "Context " ++ "prod" ++ " not found"⟩) ∧
    (set_current_cluster "dev" demoCfg).1.currentContext = some "dev" :=
  ⟨(set_current_cluster_not_found_or_rewrite "prod" demoCfg).1 (by decide),
   ((set_current_cluster_not_found_or_rewrite "dev" demoCfg).2 (by decide)).1⟩

/-! ### C9: current-cluster lookup -/

/-- C9: when `current-context` names no entry of the context list (including
an absent list), `get_current_cluster` returns none rather than raising;
otherwise it returns the ContextInfo of the unique matching entry with
`current` set to true (uniqueness from distinct context names). -/
theorem get_current_cluster_none_or_match (cfg : KubeConfig)
    (hnodup : (cfg.contexts.map KContext.name).Nodup) :
    ((∀ c ∈ cfg.contexts, some c.name ≠ cfg.currentContext) →
        get_current_cluster cfg = none) ∧
    (∀ c ∈ cfg.contexts, some c.name = cfg.currentContext →
        get_current_cluster cfg = some ⟨c.name, c.ctx.cluster, c.ctx.user, true⟩) := by
  constructor
  · intro h
    have hfind : cfg.contexts.find? (fun c => some c.name == cfg.currentContext) = none := by
      rw [List.find?_eq_none]
      intro x hx
      simp only [beq_iff_eq]
      exact h x hx
    simp [get_current_cluster, hfind]
  · intro c hc hname
    cases hfind : cfg.contexts.find? (fun c => some c.name == cfg.currentContext) with
    | none =>
        rw [List.find?_eq_none] at hfind
        exact absurd (by simpa using hname) (by simpa using hfind c hc)
    | some c0 =>
        have hp := List.find?_some hfind
        have hmem : c0 ∈ cfg.contexts := List.mem_of_find?_eq_some hfind
        have h1 : some c0.name = cfg.currentContext := by simpa using hp
        have hnames : c0.name = c.name := by
          have := h1.trans hname.symm
          simpa using this
        have : c0 = c :=
          List.inj_on_of_nodup_map hnodup hmem hc hnames
        subst this
        simp [get_current_cluster, hfind]

/-- Witness for C9: in the demo config the current context "staging" resolves
to its ContextInfo; with current-context absent the result is none. -/
theorem get_current_cluster_none_or_match_witness :
    get_current_cluster demoCfg = some ⟨"staging", some "c2", some "u2", true⟩ ∧
    get_current_cluster ⟨none, [devCtx, stagingCtx]⟩ = none :=
  ⟨(get_current_cluster_none_or_match demoCfg (by decide)).2 stagingCtx (by decide)
      (by decide),
   (get_current_cluster_none_or_match ⟨none, [devCtx, stagingCtx]⟩ (by decide)).1
      (by decide)⟩

/-! ### C6: readonly permission wrapper -/

/-- C6: for every wrapped function and argument, when the gate reads readonly
the wrapper fails with PermissionDenied carrying the operation's name and
returns the world untouched (no cluster I/O, wrapped function not invoked);
when it reads writable the wrapper delegates unchanged and returns the
delegate's outcome unchanged. -/
theorem check_readonly_permission_gate {α β : Type} (funcName : String)
    (func : β → World → Except PyErr α × World) (arg : β) (w : World) :
    (w.readonly = true →
        check_readonly_permission funcName func arg w =
          (Except.error (PyErr.permissionError funcName), w)) ∧
    (w.readonly = false →
        check_readonly_permission funcName func arg w = func arg w) := by
  constructor <;> intro h <;> simp [check_readonly_permission, h]

/-- A delegate that issues one cluster call, for exercising the gate. -/
def incCall : Unit → World → Except PyErr Unit × World :=
  fun _ w => (Except.ok (), { w with clusterCalls := w.clusterCalls + 1 })

/-- A readonly-mode world with an empty cache and no cluster calls. -/
def wRO : World := ⟨true, ⟨[], 0, 0⟩, 0⟩

/-- A writable-mode world with an empty cache and no cluster calls. -/
def wRW : World := ⟨false, ⟨[], 0, 0⟩, 0⟩

/-- Witness for C6: the gate blocks the delegate in readonly mode and is
transparent in writable mode. -/
theorem check_readonly_permission_gate_witness :
    check_readonly_permission "op" incCall () wRO =
      (Except.error (PyErr.permissionError "op"), wRO) ∧
    check_readonly_permission "op" incCall () wRW = incCall () wRW :=
  ⟨(check_readonly_permission_gate "op" incCall () wRO).1 rfl,
   (check_readonly_permission_gate "op" incCall () wRW).2 rfl⟩

/-! ### C1: readonly coverage of the mutating tool set -/

/-- C1 fails on the code: `deployment_create` (like the other daemonset,
statefulset, ingress, replicaset, pvc, node-label/taint and cluster-switch
mutations) carries no `check_readonly_permission` decorator, so with the
readonly gate closed it still issues its cluster API call and reports
Created, while the decorated `configmap_create` is rejected with
PermissionDenied and zero cluster calls. -/
theorem deployment_create_bypasses_readonly_gate :
    (deployment_create "dev" "default" "web" "nginx" wRO).1 =
      Except.ok ⟨"web", "Created"⟩ ∧
    (deployment_create "dev" "default" "web" "nginx" wRO).2.clusterCalls = 1 ∧
    (configmap_create "dev" "default" "cm1" wRO).1 =
      Except.error (PyErr.permissionError "configmap_create") ∧
    (configmap_create "dev" "default" "cm1" wRO).2.clusterCalls = 0 :=
  ⟨rfl, rfl, rfl, rfl⟩

/-! ### C2: API-group coverage of the client bundle -/

/-- C2 fails on the code: the bundle built by `get_api_clients` holds exactly
the groups core, apps and batch, so the "rbac" subscript in the role tools
and the "networking" subscript in the ingress tools raise KeyError on every
context. -/
theorem role_and_ingress_bundle_lookups_fail :
    (role_list_get_rbac "dev" ⟨[], 0, 0⟩).1 =
      Except.error (PyErr.keyError "rbac") ∧
    (ingress_list_get_networking "dev" ⟨[], 0, 0⟩).1 =
      Except.error (PyErr.keyError "networking") ∧
    (get_api_clients "dev" ⟨[], 0, 0⟩).1.handles.map Prod.fst =
      ["core", "apps", "batch"] :=
  ⟨rfl, rfl, rfl⟩

/-! ### C5: client-cache idempotence and per-name isolation -/

/-- C5: a second `get_api_clients` call for the same context returns the very
bundle of the first call with the state (hence the loader call count)
unchanged; the returned bundle is the one stored under the requested name;
entries under other names are untouched; the cache keeps at most one bundle
per distinct name; and a first-time call never returns a bundle already
cached for another name (fresh object identity). -/
theorem get_api_clients_cache_idempotent (c : String) (s : CacheState) :
    (get_api_clients c (get_api_clients c s).2).1 = (get_api_clients c s).1 ∧
    (get_api_clients c (get_api_clients c s).2).2 = (get_api_clients c s).2 ∧
    (get_api_clients c s).2.cache.lookup c = some (get_api_clients c s).1 ∧
    (∀ d, d ≠ c → (get_api_clients c s).2.cache.lookup d = s.cache.lookup d) ∧
    ((s.cache.map Prod.fst).Nodup → ((get_api_clients c s).2.cache.map Prod.fst).Nodup) ∧
    (s.cache.lookup c = none →
        ∀ p ∈ s.cache, p.2.bundleId < s.nextId → p.2 ≠ (get_api_clients c s).1) := by
  cases h : s.cache.lookup c with
  | some b =>
      refine ⟨?_, ?_, ?_, ?_, ?_, ?_⟩
      · simp [get_api_clients, h]
      · simp [get_api_clients, h]
      · simp [get_api_clients, h]
      · intro d hd
        simp [get_api_clients, h]
      · intro hn
        simpa [get_api_clients, h] using hn
      · intro hnone
        exact absurd hnone (by simp)
  | none =>
      have h2 : (s.cache ++ [(c, newBundle s.nextId)]).lookup c =
          some (newBundle s.nextId) := by
        rw [List.lookup_append, h]
        simp
      refine ⟨?_, ?_, ?_, ?_, ?_, ?_⟩
      · simp [get_api_clients, h, h2]
      · simp [get_api_clients, h, h2]
      · simpa [get_api_clients, h] using h2
      · intro d hd
        have h3 : ([(c, newBundle s.nextId)] : List (String × Bundle)).lookup d = none := by
          rw [List.lookup_cons, show (d == c) = false by simp [hd]]
          rfl
        simp only [get_api_clients, h]
        rw [List.lookup_append, h3, Option.or_none]
      · intro hn
        have hnotmem : c ∉ s.cache.map Prod.fst := by
          rw [List.lookup_eq_none_iff] at h
          intro hmem
          obtain ⟨p, hp, hfst⟩ := List.mem_map.mp hmem
          have := h p hp
          simp [hfst] at this
        simp only [get_api_clients, h, List.map_append]
        rw [List.nodup_append]
        refine ⟨hn, by simp, by simpa using hnotmem⟩
      · intro _ p hp hlt heq
        have hid : p.2.bundleId = s.nextId := by
          rw [show (get_api_clients c s).1 = newBundle s.nextId by
            simp [get_api_clients, h]] at heq
          rw [heq]
          rfl
        rw [hid] at hlt
        exact Nat.lt_irrefl _ hlt

/-- Witness for C5: on a fresh cache, calling twice for "dev" reuses the one
bundle with one loader call in total, and the "staging" slot stays empty. -/
theorem get_api_clients_cache_idempotent_witness :
    (get_api_clients "dev" ((get_api_clients "dev" ⟨[], 0, 0⟩).2)).2 =
      (get_api_clients "dev" ⟨[], 0, 0⟩).2 ∧
    (get_api_clients "dev" ⟨[], 0, 0⟩).2.cache.lookup "staging" =
      (⟨[], 0, 0⟩ : CacheState).cache.lookup "staging" ∧
    ((get_api_clients "dev" ⟨[], 0, 0⟩).2.cache.map Prod.fst).Nodup :=
  ⟨(get_api_clients_cache_idempotent "dev" ⟨[], 0, 0⟩).2.1,
   (get_api_clients_cache_idempotent "dev" ⟨[], 0, 0⟩).2.2.2.1 "staging" (by decide),
   (get_api_clients_cache_idempotent "dev" ⟨[], 0, 0⟩).2.2.2.2.1 (by simp)⟩

/-! ### Keyword-map lemmas shared by the wrapper proofs -/

theorem kwset_lookup_self (kw : List (String × Value)) (k : String) (v : Value) :
    (kwset kw k v).lookup k = some v := by
  induction kw with
  | nil => simp [kwset]
  | cons p rest ih =>
      obtain ⟨k0, v0⟩ := p
      by_cases hk : k = k0
      · subst hk
        simp [kwset]
      · rw [show kwset ((k0, v0) :: rest) k v = (k0, v0) :: kwset rest k v by
            simp [kwset, hk]]
        rw [List.lookup_cons, show (k == k0) = false by simp [hk]]
        exact ih

theorem kwset_lookup_ne (kw : List (String × Value)) (k : String) (v : Value)
    (k' : String) (h : k' ≠ k) : (kwset kw k v).lookup k' = kw.lookup k' := by
  have hbeq : (k' == k) = false := by simp [h]
  induction kw with
  | nil =>
      rw [show kwset [] k v = [(k, v)] from rfl, List.lookup_cons, hbeq, List.lookup_nil]
  | cons p rest ih =>
      obtain ⟨k0, v0⟩ := p
      by_cases hk : k = k0
      · subst hk
        rw [show kwset ((k, v0) :: rest) k v = (k, v) :: rest by simp [kwset]]
        rw [List.lookup_cons, List.lookup_cons, hbeq]
      · rw [show kwset ((k0, v0) :: rest) k v = (k0, v0) :: kwset rest k v by
            simp [kwset, hk]]
        rw [List.lookup_cons, List.lookup_cons]
        cases hbk : k' == k0 <;> simp [ih]

theorem missing_or_none_kwset_ne (kw : List (String × Value)) (k : String)
    (v : Value) (k' : String) (h : k' ≠ k) :
    missing_or_none (kwset kw k v) k' = missing_or_none kw k' := by
  unfold missing_or_none
  rw [kwset_lookup_ne kw k v k' h]

theorem kwset_of_lookup_none (kw : List (String × Value)) (k : String) (v : Value)
    (h : kw.lookup k = none) : kwset kw k v = kw ++ [(k, v)] := by
  induction kw with
  | nil => simp [kwset]
  | cons p rest ih =>
      obtain ⟨k0, v0⟩ := p
      rw [List.lookup_cons] at h
      cases hk : k == k0 with
      | true =>
          rw [hk] at h
          exact absurd h (by simp)
      | false =>
          rw [hk] at h
          simp [kwset, hk, ih h]

theorem kwset_append_left (l1 l2 : List (String × Value)) (k : String) (v w : Value)
    (h : l1.lookup k = some w) : kwset (l1 ++ l2) k v = kwset l1 k v ++ l2 := by
  induction l1 with
  | nil => simp at h
  | cons p rest ih =>
      obtain ⟨k0, v0⟩ := p
      rw [List.lookup_cons] at h
      cases hk : k == k0 with
      | true => simp [kwset, hk]
      | false =>
          rw [hk] at h
          simp [kwset, hk, ih h]

theorem mem_kwset (kw : List (String × Value)) (k : String) (v : Value)
    (x : String × Value) (hx : x ∈ kwset kw k v) : x.1 = k ∨ x ∈ kw := by
  induction kw with
  | nil =>
      simp [kwset] at hx
      left
      rw [hx]
  | cons p rest ih =>
      obtain ⟨k0, v0⟩ := p
      by_cases hk : (k == k0) = true
      · rw [show kwset ((k0, v0) :: rest) k v = (k0, v) :: rest by simp [kwset, hk]] at hx
        rcases List.mem_cons.mp hx with h1 | h2
        · left
          rw [h1]
          exact (beq_iff_eq.mp hk).symm
        · right
          exact List.mem_cons_of_mem _ h2
      · rw [show kwset ((k0, v0) :: rest) k v = (k0, v0) :: kwset rest k v by
            simp [kwset, hk]] at hx
        rcases List.mem_cons.mp hx with h1 | h2
        · right
          exact h1 ▸ List.mem_cons_self _ _
        · rcases ih h2 with h3 | h4
          · exact Or.inl h3
          · exact Or.inr (List.mem_cons_of_mem _ h4)

theorem find?_append_of_forall_false {α : Type} (p : α → Bool) (l1 l2 : List α)
    (h : ∀ x ∈ l1, p x = false) : (l1 ++ l2).find? p = l2.find? p := by
  rw [List.find?_append, List.find?_eq_none.mpr (fun x hx => by simp [h x hx]),
    Option.none_or]

/-! ### Projections of a wrapper invocation's outcome -/

/-- The positional arguments the delegated call receives, if the wrapper
succeeds. -/
def resolved_args (cfg : KubeConfig) (params : List String) (args : List Value)
    (kwargs : List (String × Value)) : Option (List Value) :=
  match use_current_context cfg params args kwargs with
  | Except.ok (args1, _) => some args1
  | Except.error _ => none

/-- The value bound to keyword `k` in the delegated call, if the wrapper
succeeds. -/
def resolved_kw (cfg : KubeConfig) (params : List String) (args : List Value)
    (kwargs : List (String × Value)) (k : String) : Option Value :=
  match use_current_context cfg params args kwargs with
  | Except.ok (_, kwargs1) => kwargs1.lookup k
  | Except.error _ => none

/-! ### C3: context/namespace defaulting for keyword-style calls -/

/-- C3: for a wrapped function declaring `context_name`, a call that omits
`context_name` (or passes None) gets the configuration's current context
substituted; when the function also declares `namespace` and the call omits
it (or passes None), the default namespace of the already-resolved context is
substituted (context resolution first); positional arguments and all other
keywords reach the wrapped function unchanged.  The second conjunct covers
calls that do supply `context_name`: namespace defaulting then uses the
supplied name. -/
theorem use_current_context_defaulting (cfg : KubeConfig) (params : List String)
    (args : List Value) (kwargs : List (String × Value)) (cur : String)
    (hp : params.contains "context_name" = true)
    (hcur : get_current_context_name cfg = Except.ok cur) :
    (missing_or_none kwargs "context_name" = true →
        resolved_args cfg params args kwargs = some args ∧
        resolved_kw cfg params args kwargs "context_name" = some (Value.vstr cur) ∧
        (params.contains "namespace" = true →
          missing_or_none kwargs "namespace" = true →
            resolved_kw cfg params args kwargs "namespace" =
              some (Value.vstr (get_default_namespace cfg cur))) ∧
        (∀ k, k ≠ "context_name" → k ≠ "namespace" →
            resolved_kw cfg params args kwargs k = kwargs.lookup k)) ∧
    (∀ s, kwargs.lookup "context_name" = some (Value.vstr s) →
        resolved_args cfg params args kwargs = some args ∧
        resolved_kw cfg params args kwargs "context_name" = some (Value.vstr s) ∧
        (params.contains "namespace" = true →
          missing_or_none kwargs "namespace" = true →
            resolved_kw cfg params args kwargs "namespace" =
              some (Value.vstr (get_default_namespace cfg s))) ∧
        (∀ k, k ≠ "context_name" → k ≠ "namespace" →
            resolved_kw cfg params args kwargs k = kwargs.lookup k)) := by
  constructor
  · intro hmiss
    have hstep : (if missing_or_none kwargs "context_name" then
          match get_current_context_name cfg with
          | Except.ok cur => Except.ok (kwset kwargs "context_name" (Value.vstr cur))
          | Except.error e => Except.error e
        else Except.ok kwargs)
        = Except.ok (kwset kwargs "context_name" (Value.vstr cur)) := by
      rw [if_pos hmiss, hcur]
    have hctxval : (kwset kwargs "context_name" (Value.vstr cur)).lookup
        "context_name" = some (Value.vstr cur) := kwset_lookup_self _ _ _
    have hred : use_current_context cfg params args kwargs =
        (if params.contains "namespace" then
          if missing_or_none (kwset kwargs "context_name" (Value.vstr cur))
              "namespace" then
            Except.ok (args,
              kwset (kwset kwargs "context_name" (Value.vstr cur)) "namespace"
                (Value.vstr (get_default_namespace cfg cur)))
          else Except.ok (args, kwset kwargs "context_name" (Value.vstr cur))
         else Except.ok (args, kwset kwargs "context_name" (Value.vstr cur))) := by
      unfold use_current_context
      rw [if_pos hp, hstep]
      simp only [hctxval, Option.getD_some, get_default_namespace_of_value]
    by_cases hns : params.contains "namespace" = true
    · by_cases hm2 : missing_or_none kwargs "namespace" = true
      · have hmns : missing_or_none (kwset kwargs "context_name" (Value.vstr cur))
            "namespace" = true := by
          rw [missing_or_none_kwset_ne _ _ _ _ (by decide)]
          exact hm2
        have hfin : use_current_context cfg params args kwargs =
            Except.ok (args,
              kwset (kwset kwargs "context_name" (Value.vstr cur)) "namespace"
                (Value.vstr (get_default_namespace cfg cur))) := by
          rw [hred, if_pos hns, if_pos hmns]
        refine ⟨by simp [resolved_args, hfin], ?_, ?_, ?_⟩
        · simp only [resolved_kw, hfin]
          rw [kwset_lookup_ne _ _ _ _ (by decide), kwset_lookup_self]
        · intro _ _
          simp only [resolved_kw, hfin]
          rw [kwset_lookup_self]
        · intro k hk1 hk2
          simp only [resolved_kw, hfin]
          rw [kwset_lookup_ne _ _ _ _ hk2, kwset_lookup_ne _ _ _ _ hk1]
      · have hmns : ¬ (missing_or_none (kwset kwargs "context_name" (Value.vstr cur))
            "namespace" = true) := by
          rw [missing_or_none_kwset_ne _ _ _ _ (by decide)]
          exact hm2
        have hfin : use_current_context cfg params args kwargs =
            Except.ok (args, kwset kwargs "context_name" (Value.vstr cur)) := by
          rw [hred, if_pos hns, if_neg hmns]
        refine ⟨by simp [resolved_args, hfin], ?_, ?_, ?_⟩
        · simp only [resolved_kw, hfin]
          rw [kwset_lookup_self]
        · intro _ hc
          exact absurd hc hm2
        · intro k hk1 _
          simp only [resolved_kw, hfin]
          rw [kwset_lookup_ne _ _ _ _ hk1]
    · have hfin : use_current_context cfg params args kwargs =
          Except.ok (args, kwset kwargs "context_name" (Value.vstr cur)) := by
        rw [hred, if_neg hns]
      refine ⟨by simp [resolved_args, hfin], ?_, ?_, ?_⟩
      · simp only [resolved_kw, hfin]
        rw [kwset_lookup_self]
      · intro hc _
        exact absurd hc hns
      · intro k hk1 _
        simp only [resolved_kw, hfin]
        rw [kwset_lookup_ne _ _ _ _ hk1]
  · intro s hsup
    have hmiss : missing_or_none kwargs "context_name" = false := by
      unfold missing_or_none
      rw [hsup]
    have hstep : (if missing_or_none kwargs "context_name" then
          match get_current_context_name cfg with
          | Except.ok cur => Except.ok (kwset kwargs "context_name" (Value.vstr cur))
          | Except.error e => Except.error e
        else Except.ok kwargs) = Except.ok kwargs := by
      rw [if_neg (by simp [hmiss])]
    have hred2 : use_current_context cfg params args kwargs =
        (if params.contains "namespace" then
          if missing_or_none kwargs "namespace" then
            Except.ok (args,
              kwset kwargs "namespace" (Value.vstr (get_default_namespace cfg s)))
          else Except.ok (args, kwargs)
         else Except.ok (args, kwargs)) := by
      unfold use_current_context
      rw [if_pos hp, hstep]
      simp only [hsup, Option.getD_some, get_default_namespace_of_value]
    by_cases hns : params.contains "namespace" = true
    · by_cases hm2 : missing_or_none kwargs "namespace" = true
      · have hfin : use_current_context cfg params args kwargs =
            Except.ok (args,
              kwset kwargs "namespace" (Value.vstr (get_default_namespace cfg s))) := by
          rw [hred2, if_pos hns, if_pos hm2]
        refine ⟨by simp [resolved_args, hfin], ?_, ?_, ?_⟩
        · simp only [resolved_kw, hfin]
          rw [kwset_lookup_ne _ _ _ _ (by decide)]
          exact hsup
        · intro _ _
          simp only [resolved_kw, hfin]
          rw [kwset_lookup_self]
        · intro k hk1 hk2
          simp only [resolved_kw, hfin]
          rw [kwset_lookup_ne _ _ _ _ hk2]
      · have hfin : use_current_context cfg params args kwargs =
            Except.ok (args, kwargs) := by
          rw [hred2, if_pos hns, if_neg hm2]
        refine ⟨by simp [resolved_args, hfin], ?_, ?_, ?_⟩
        · simp only [resolved_kw, hfin]
          exact hsup
        · intro _ hc
          exact absurd hc hm2
        · intro k hk1 _
          simp only [resolved_kw, hfin]
    · have hfin : use_current_context cfg params args kwargs =
          Except.ok (args, kwargs) := by
        rw [hred2, if_neg hns]
      refine ⟨by simp [resolved_args, hfin], ?_, ?_, ?_⟩
      · simp only [resolved_kw, hfin]
        exact hsup
      · intro hc _
        exact absurd hc hns
      · intro k hk1 _
        simp only [resolved_kw, hfin]

/-- Witness for C3: calling a tool with parameters
(context_name, namespace, name) while supplying only name gets the current
context "staging" and its default namespace filled in, and name untouched. -/
theorem use_current_context_defaulting_witness :
    resolved_args demoCfg ["context_name", "namespace", "name"] []
        [("name", Value.vstr "cm1")] = some [] ∧
    resolved_kw demoCfg ["context_name", "namespace", "name"] []
        [("name", Value.vstr "cm1")] "context_name" = some (Value.vstr "staging") ∧
    resolved_kw demoCfg ["context_name", "namespace", "name"] []
        [("name", Value.vstr "cm1")] "namespace" =
      some (Value.vstr (get_default_namespace demoCfg "staging")) ∧
    resolved_kw demoCfg ["context_name", "namespace", "name"] []
        [("name", Value.vstr "cm1")] "name" = some (Value.vstr "cm1") := by
  obtain ⟨h1, h2, h3, h4⟩ :=
    (use_current_context_defaulting demoCfg ["context_name", "namespace", "name"] []
        [("name", Value.vstr "cm1")] "staging" (by decide) (by rfl)).1 (by decide)
  exact ⟨h1, h2, h3 (by decide) (by decide),
    (h4 "name" (by decide) (by decide)).trans (by decide)⟩

/-! ### C10: positional context_name defeats the wrapper -/

/-- C10: the wrapper keys its defaulting on keyword arguments only.  When a
caller supplies `context_name` positionally (and their own keywords name no
positionally-filled parameter), the wrapper still finds `context_name` absent
from the keywords, injects the current context as a keyword, and the
delegated call receives the parameter twice, failing with TypeError "got
multiple values" instead of using the caller's positional value. -/
theorem wrapped_call_positional_context_conflict (cfg : KubeConfig)
    (params : List String) (args : List Value) (kwargs : List (String × Value))
    (cur : String)
    (hlen : args.length ≤ params.length)
    (hpos : (params.take args.length).contains "context_name" = true)
    (hmiss : kwargs.lookup "context_name" = none)
    (hcur : get_current_context_name cfg = Except.ok cur)
    (hclean : ∀ p ∈ kwargs, (params.take args.length).contains p.1 = false) :
    wrapped_call cfg params args kwargs =
      Except.error (PyErr.typeErrorMultipleValues "context_name") := by
  have hp : params.contains "context_name" = true := by
    have hmem : "context_name" ∈ params.take args.length := by
      simpa using hpos
    have hmem2 : "context_name" ∈ params := List.take_subset _ _ hmem
    simpa using hmem2
  have hmiss1 : missing_or_none kwargs "context_name" = true := by
    unfold missing_or_none
    rw [hmiss]
  have hkw1 : kwset kwargs "context_name" (Value.vstr cur) =
      kwargs ++ [("context_name", Value.vstr cur)] :=
    kwset_of_lookup_none _ _ _ hmiss
  have hposmem : "context_name" ∈ params.take args.length := by
    simpa using hpos
  have hbind : ∀ kw2 : List (String × Value),
      kw2.find? (fun p => (params.take args.length).contains p.1) =
        some ("context_name", Value.vstr cur) →
      bindArgs params args kw2 =
        Except.error (PyErr.typeErrorMultipleValues "context_name") := by
    intro kw2 hfind
    simp only [bindArgs]
    rw [if_neg (by omega), hfind]
  have hfound : (kwargs ++ [("context_name", Value.vstr cur)]).find?
      (fun p => (params.take args.length).contains p.1) =
        some ("context_name", Value.vstr cur) := by
    rw [find?_append_of_forall_false _ _ _ hclean]
    simp [hposmem]
  have hstep : (if missing_or_none kwargs "context_name" then
        match get_current_context_name cfg with
        | Except.ok cur => Except.ok (kwset kwargs "context_name" (Value.vstr cur))
        | Except.error e => Except.error e
      else Except.ok kwargs)
      = Except.ok (kwset kwargs "context_name" (Value.vstr cur)) := by
    rw [if_pos hmiss1, hcur]
  have hctxval : (kwset kwargs "context_name" (Value.vstr cur)).lookup
      "context_name" = some (Value.vstr cur) := kwset_lookup_self _ _ _
  have hred : use_current_context cfg params args kwargs =
      (if params.contains "namespace" then
        if missing_or_none (kwset kwargs "context_name" (Value.vstr cur))
            "namespace" then
          Except.ok (args,
            kwset (kwset kwargs "context_name" (Value.vstr cur)) "namespace"
              (Value.vstr (get_default_namespace cfg cur)))
        else Except.ok (args, kwset kwargs "context_name" (Value.vstr cur))
       else Except.ok (args, kwset kwargs "context_name" (Value.vstr cur))) := by
    unfold use_current_context
    rw [if_pos hp, hstep]
    simp only [hctxval, Option.getD_some, get_default_namespace_of_value]
  have hnsctx : ([("context_name", Value.vstr cur)] :
      List (String × Value)).lookup "namespace" = none := by
    rw [List.lookup_cons, show ("namespace" == "context_name") = false by decide]
    rfl
  have hlapp : (kwargs ++ [("context_name", Value.vstr cur)]).lookup "namespace" =
      kwargs.lookup "namespace" := by
    rw [List.lookup_append, hnsctx, Option.or_none]
  by_cases hns : params.contains "namespace" = true
  · by_cases hm2 : missing_or_none (kwset kwargs "context_name" (Value.vstr cur))
        "namespace" = true
    · have hfin : use_current_context cfg params args kwargs =
          Except.ok (args,
            kwset (kwset kwargs "context_name" (Value.vstr cur)) "namespace"
              (Value.vstr (get_default_namespace cfg cur))) := by
        rw [hred, if_pos hns, if_pos hm2]
      cases hlns : kwargs.lookup "namespace" with
      | none =>
          have hlns1 : (kwset kwargs "context_name" (Value.vstr cur)).lookup
              "namespace" = none := by
            rw [hkw1, hlapp, hlns]
          have hkw2 : kwset (kwset kwargs "context_name" (Value.vstr cur))
              "namespace" (Value.vstr (get_default_namespace cfg cur)) =
              (kwargs ++ [("context_name", Value.vstr cur)]) ++
                [("namespace", Value.vstr (get_default_namespace cfg cur))] := by
            rw [kwset_of_lookup_none _ _ _ hlns1, hkw1]
          simp only [wrapped_call, hfin]
          refine hbind _ ?_
          rw [hkw2, List.find?_append, hfound]
          rfl
      | some w =>
          have hkw2 : kwset (kwset kwargs "context_name" (Value.vstr cur))
              "namespace" (Value.vstr (get_default_namespace cfg cur)) =
              kwset kwargs "namespace"
                  (Value.vstr (get_default_namespace cfg cur)) ++
                [("context_name", Value.vstr cur)] := by
            rw [hkw1]
            exact kwset_append_left _ _ _ _ w hlns
          have hnsmem : ("namespace", w) ∈ kwargs := by
            rcases List.lookup_eq_some_iff.mp hlns with ⟨l1, l2, hdecomp, _⟩
            rw [hdecomp]
            exact List.mem_append_right _ (List.mem_cons_self _ _)
          have hnsfalse : (params.take args.length).contains "namespace" = false :=
            hclean ("namespace", w) hnsmem
          have hall : ∀ x ∈ kwset kwargs "namespace"
              (Value.vstr (get_default_namespace cfg cur)),
              (params.take args.length).contains x.1 = false := by
            intro x hx
            rcases mem_kwset _ _ _ _ hx with h1 | h2
            · rw [h1]
              exact hnsfalse
            · exact hclean x h2
          simp only [wrapped_call, hfin]
          refine hbind _ ?_
          rw [hkw2, find?_append_of_forall_false _ _ _ hall]
          simp [hposmem]
    · have hfin : use_current_context cfg params args kwargs =
          Except.ok (args, kwset kwargs "context_name" (Value.vstr cur)) := by
        rw [hred, if_pos hns, if_neg hm2]
      simp only [wrapped_call, hfin]
      refine hbind _ ?_
      rw [hkw1]
      exact hfound
  · have hfin : use_current_context cfg params args kwargs =
        Except.ok (args, kwset kwargs "context_name" (Value.vstr cur)) := by
      rw [hred, if_neg hns]
    simp only [wrapped_call, hfin]
    refine hbind _ ?_
    rw [hkw1]
    exact hfound

/-- Witness for C10: calling a (context_name, namespace, name) tool with the
context supplied positionally and only name as a keyword fails with TypeError
"got multiple values for context_name". -/
theorem wrapped_call_positional_context_conflict_witness :
    wrapped_call demoCfg ["context_name", "namespace", "name"] [Value.vstr "dev"]
        [("name", Value.vstr "cm1")] =
      Except.error (PyErr.typeErrorMultipleValues "context_name") :=
  wrapped_call_positional_context_conflict demoCfg
    ["context_name", "namespace", "name"] [Value.vstr "dev"]
    [("name", Value.vstr "cm1")] "staging"
    (by decide) (by decide) (by decide) (by rfl) (by decide)

end K8sPilot
